import Mathlib

/-!
Shallow embedding of the CRUD backend in `src/BackEnd/src/schemas.ts` and
`src/BackEnd/src/server.ts`.

The repository contains two stacked revisions of each file: an earlier
cliente-only revision (called V1 below) and the later full route set
(clientes, acoes, alocacoes — the unsuffixed definitions below).  Machine
numbers (Prisma `Decimal`, JS numbers) are modelled as `Rat`; calendar dates
as `Nat` (their value is never inspected by any handler); the database as
lists of records, with Prisma `findUnique`/`findFirst` as `List.find?`,
unique-constraint violations (`P2002`) as an explicit duplicate scan,
`P2025` as a failed `find?`, and the foreign-key restriction (`P2003`) as a
scan of the referencing table.
-/

/-- Record of the `Cliente` table (id, full name, tax id, phone, birth
date, email). -/
structure Cliente where
  id : Nat
  nome_completo : String
  cpf_cnpj : String
  telefone : String
  data_nascimento : Nat
  email : String
  deriving DecidableEq, Repr

/-- Record of the `Acao` table (id, asset name, ticker, current price,
optional type and description). -/
structure Acao where
  id : Nat
  nome_ativo : String
  codigo_ticker : String
  valor_atual : Rat
  tipo_ativo : Option String
  descricao : Option String
  deriving DecidableEq, Repr

/-- The projection of an `Acao` selected by the list-allocations handler
(`select: { id, nome_ativo, codigo_ticker, valor_atual }`). -/
structure AcaoView where
  id : Nat
  nome_ativo : String
  codigo_ticker : String
  valor_atual : Rat
  deriving DecidableEq, Repr

/-- Record of the `AlocacaoCliente` table: the (cliente, acao) join entity
with quantity, average acquisition price and last-purchase date. -/
structure AlocacaoCliente where
  id : Nat
  clienteId : Nat
  acaoId : Nat
  quantidade : Rat
  valor_medio_aquisicao : Rat
  data_ultima_compra : Nat
  deriving DecidableEq, Repr

/-- The database: the three tables. -/
structure DB where
  clientes : List Cliente
  acoes : List Acao
  alocacoes : List AlocacaoCliente
  deriving DecidableEq, Repr

/-- Projection used by `include: { acao: { select: ... } }`. -/
def acaoView (a : Acao) : AcaoView :=
  { id := a.id, nome_ativo := a.nome_ativo, codigo_ticker := a.codigo_ticker,
    valor_atual := a.valor_atual }

/-! ## Schema layer (`schemas.ts`) -/

/-- JavaScript truthiness of an optional query-string value, as tested by
`!!data.nome_completo` in the `buscarClienteQuerySchema` refinements:
`undefined` (absent) and the empty string are falsy. -/
def truthy (o : Option String) : Bool :=
  o.getD "" != ""

/-- `buscarClienteQuerySchema`: two optional strings followed by two
`.refine` steps.  Returns the list of refinement failure messages
(empty list = validation success), exactly the messages of the two
refinements in `schemas.ts`. -/
def validateBuscar (nome_completo cpf_cnpj : Option String) : List String :=
  (if !(truthy nome_completo || truthy cpf_cnpj) then
    ["Forneça \x27nome_completo\x27 ou \x27cpf_cnpj\x27 para a busca."]
  else []) ++
  (if truthy nome_completo && truthy cpf_cnpj then
    ["Forneça apenas \x27nome_completo\x27 OU \x27cpf_cnpj\x27 para a busca, não ambos simultaneamente."]
  else [])

/-- The semantics of the anchored regex `^(\d{11}|\d{14})$` of the
`cpf_cnpj` field: the alternation of a run of exactly 11 digits and a run
of exactly 14 digits, each consuming the whole string. -/
def matchCpfCnpjRegex (s : String) : Bool :=
  (s.length == 11 && s.toList.all Char.isDigit) ||
  (s.length == 14 && s.toList.all Char.isDigit)

/-- `createClienteSchema.cpf_cnpj`: the chain `.min(11).max(18).regex(...)`;
the string is accepted iff every check passes. -/
def acceptCpfCnpjCreate (s : String) : Bool :=
  decide (11 ≤ s.length) && decide (s.length ≤ 18) && matchCpfCnpjRegex s

/-- `updateClienteSchema.cpf_cnpj`: the same chain
`.min(11).max(18).regex(...)` (applied when the optional field is
present). -/
def acceptCpfCnpjUpdate (s : String) : Bool :=
  decide (11 ≤ s.length) && decide (s.length ≤ 18) && matchCpfCnpjRegex s

/-- Parsed `createClienteSchema` output. -/
structure CreateClienteInput where
  nome_completo : String
  cpf_cnpj : String
  telefone : String
  data_nascimento : Nat
  email : String
  deriving DecidableEq, Repr

/-- Parsed `updateClienteSchema` output: every field optional; zod strips
unknown keys, so the parsed object holds exactly the recognised keys that
were supplied. -/
structure UpdateClienteInput where
  nome_completo : Option String := none
  cpf_cnpj : Option String := none
  telefone : Option String := none
  data_nascimento : Option Nat := none
  email : Option String := none
  deriving DecidableEq, Repr

/-- `Object.keys(dadosAtualizacao).length === 0` on a parsed
`updateClienteSchema` object: no recognised key was supplied. -/
def UpdateClienteInput.isEmpty (b : UpdateClienteInput) : Bool :=
  b.nome_completo.isNone && b.cpf_cnpj.isNone && b.telefone.isNone &&
  b.data_nascimento.isNone && b.email.isNone

/-- Parsed `createAcaoSchema` output. -/
structure CreateAcaoInput where
  nome_ativo : String
  codigo_ticker : String
  valor_atual : Rat
  tipo_ativo : Option String := none
  descricao : Option String := none
  deriving DecidableEq, Repr

/-- Parsed `updateAcaoSchema` output.  `descricao` is
`.optional().nullable()`: the outer `Option` is presence of the key, the
inner one distinguishes a string from an explicit `null`. -/
structure UpdateAcaoInput where
  nome_ativo : Option String := none
  codigo_ticker : Option String := none
  valor_atual : Option Rat := none
  tipo_ativo : Option String := none
  descricao : Option (Option String) := none
  deriving DecidableEq, Repr

/-- Empty parsed `updateAcaoSchema` payload (no key supplied). -/
def UpdateAcaoInput.isEmpty (b : UpdateAcaoInput) : Bool :=
  b.nome_ativo.isNone && b.codigo_ticker.isNone && b.valor_atual.isNone &&
  b.tipo_ativo.isNone && b.descricao.isNone

/-- Parsed `createAlocacaoSchema` output. -/
structure CreateAlocacaoInput where
  acaoId : Nat
  quantidade : Rat
  valor_medio_aquisicao : Rat
  data_ultima_compra : Nat
  deriving DecidableEq, Repr

/-- The field constraints of `createAlocacaoSchema`: positive integer
`acaoId`, positive quantity, non-negative average price. -/
def CreateAlocacaoInput.Valid (b : CreateAlocacaoInput) : Prop :=
  0 < b.acaoId ∧ 0 < b.quantidade ∧ 0 ≤ b.valor_medio_aquisicao

instance (b : CreateAlocacaoInput) : Decidable b.Valid := by
  unfold CreateAlocacaoInput.Valid; infer_instance

/-- Parsed `updateAlocacaoSchema` output: only quantity, average price and
last-purchase date, each optional. -/
structure UpdateAlocacaoInput where
  quantidade : Option Rat := none
  valor_medio_aquisicao : Option Rat := none
  data_ultima_compra : Option Nat := none
  deriving DecidableEq, Repr

/-- Empty parsed `updateAlocacaoSchema` payload (no key supplied). -/
def UpdateAlocacaoInput.isEmpty (b : UpdateAlocacaoInput) : Bool :=
  b.quantidade.isNone && b.valor_medio_aquisicao.isNone &&
  b.data_ultima_compra.isNone

/-- A raw JSON body sent to `PUT /alocacoes/:id`, before zod parsing: the
three recognised keys plus possible `acaoId` / `clienteId` keys. -/
structure RawUpdateAlocacaoBody where
  quantidade : Option Rat := none
  valor_medio_aquisicao : Option Rat := none
  data_ultima_compra : Option Nat := none
  acaoId : Option Nat := none
  clienteId : Option Nat := none
  deriving DecidableEq, Repr

/-- zod parsing of `updateAlocacaoSchema`: a `z.object` strips keys that
are not declared in the shape, so `acaoId` and `clienteId` are dropped. -/
def parseUpdateAlocacao (r : RawUpdateAlocacaoBody) : UpdateAlocacaoInput :=
  { quantidade := r.quantidade,
    valor_medio_aquisicao := r.valor_medio_aquisicao,
    data_ultima_compra := r.data_ultima_compra }

/-! ## Responses -/

/-- A JSON response body, abstracted over the shapes the handlers send. -/
inductive Body where
  /-- `{ message }` -/
  | msg (message : String)
  /-- `{ message, fields }` (only the V1 cliente conflict branches) -/
  | msgFields (message : String) (fields : String)
  /-- the 400 body produced when schema validation fails, carrying the
  per-constraint messages -/
  | errors (messages : List String)
  /-- a cliente record -/
  | cliente (c : Cliente)
  /-- an acao record -/
  | acao (a : Acao)
  /-- an alocacao with its included `acao` relation (`include: { acao: true }`);
  the relation is `none` when the referenced acao row is absent -/
  | alocacao (a : AlocacaoCliente) (acao : Option Acao)
  /-- the list body of `GET /clientes/:id/alocacoes`, each alocacao with the
  selected acao fields -/
  | alocacaoList (items : List (AlocacaoCliente × Option AcaoView))
  deriving DecidableEq, Repr

/-- Whether the body carries a `message` string. -/
def Body.hasMessage : Body → Bool
  | .msg _ => true
  | .msgFields _ _ => true
  | .errors _ => true
  | _ => false

/-- Whether the body carries a `fields` indicator. -/
def Body.hasFields : Body → Bool
  | .msgFields _ _ => true
  | _ => false

/-- An HTTP response: status code and JSON body. -/
structure Response where
  status : Nat
  body : Body
  deriving DecidableEq, Repr

/-! ## Prisma-level helpers -/

/-- The first cliente column whose unique constraint the row `c` would
violate against the other rows (Prisma error `P2002`, `meta.target`);
`selfId` excludes the row being updated. -/
def clienteConflictTarget (db : DB) (selfId : Nat) (c : Cliente) : Option String :=
  if db.clientes.any (fun o => o.id != selfId && o.cpf_cnpj == c.cpf_cnpj) then
    some "cpf_cnpj"
  else if db.clientes.any (fun o => o.id != selfId && o.email == c.email) then
    some "email"
  else none

/-- The first acao column whose unique constraint the row `a` would violate
against the other rows. -/
def acaoConflictTarget (db : DB) (selfId : Nat) (a : Acao) : Option String :=
  if db.acoes.any (fun o => o.id != selfId && o.nome_ativo == a.nome_ativo) then
    some "nome_ativo"
  else if db.acoes.any (fun o => o.id != selfId && o.codigo_ticker == a.codigo_ticker) then
    some "codigo_ticker"
  else none

/-- Autoincremented id for a new cliente row. -/
def freshClienteId (db : DB) : Nat :=
  db.clientes.foldl (fun m c => max m c.id) 0 + 1

/-- Autoincremented id for a new acao row. -/
def freshAcaoId (db : DB) : Nat :=
  db.acoes.foldl (fun m a => max m a.id) 0 + 1

/-- Autoincremented id for a new alocacao row. -/
def freshAlocacaoId (db : DB) : Nat :=
  db.alocacoes.foldl (fun m a => max m a.id) 0 + 1

/-- `prisma.cliente.update`'s data application: supplied fields overwrite,
absent fields are untouched. -/
def applyUpdateCliente (c : Cliente) (b : UpdateClienteInput) : Cliente :=
  { c with
    nome_completo := b.nome_completo.getD c.nome_completo,
    cpf_cnpj := b.cpf_cnpj.getD c.cpf_cnpj,
    telefone := b.telefone.getD c.telefone,
    data_nascimento := b.data_nascimento.getD c.data_nascimento,
    email := b.email.getD c.email }

/-- `prisma.acao.update`'s data application.  A supplied `descricao` value
(string or explicit null) overwrites; an absent key leaves the column. -/
def applyUpdateAcao (a : Acao) (b : UpdateAcaoInput) : Acao :=
  { a with
    nome_ativo := b.nome_ativo.getD a.nome_ativo,
    codigo_ticker := b.codigo_ticker.getD a.codigo_ticker,
    valor_atual := b.valor_atual.getD a.valor_atual,
    tipo_ativo := (b.tipo_ativo.map some).getD a.tipo_ativo,
    descricao := b.descricao.getD a.descricao }

/-- `prisma.alocacaoCliente.update`'s data application: only quantity,
average price and date can be supplied. -/
def applyUpdateAlocacao (a : AlocacaoCliente) (b : UpdateAlocacaoInput) : AlocacaoCliente :=
  { a with
    quantidade := b.quantidade.getD a.quantidade,
    valor_medio_aquisicao := b.valor_medio_aquisicao.getD a.valor_medio_aquisicao,
    data_ultima_compra := b.data_ultima_compra.getD a.data_ultima_compra }

/-- Whether `needle` occurs as a contiguous sublist of `hay`. -/
def listContainsSub (hay needle : List Char) : Bool :=
  match hay with
  | [] => needle.isEmpty
  | h@(_ :: t) => needle.isPrefixOf h || listContainsSub t needle

/-- Case-insensitive substring test: Prisma
`contains` with `mode: insensitive` on a string column (both sides are
lowered character by character before the substring scan). -/
def containsInsensitive (hay needle : String) : Bool :=
  listContainsSub (hay.toList.map Char.toLower) (needle.toList.map Char.toLower)

/-! ## Request handlers — full route set (second revision of `server.ts`) -/

/-- `POST /clientes` (full route set): insert; on `P2002` answer 409 with a
message only; otherwise 201 with the created record. -/
def postClientes (db : DB) (b : CreateClienteInput) : Response × DB :=
  let novo : Cliente :=
    { id := freshClienteId db, nome_completo := b.nome_completo,
      cpf_cnpj := b.cpf_cnpj, telefone := b.telefone,
      data_nascimento := b.data_nascimento, email := b.email }
  match clienteConflictTarget db novo.id novo with
  | some target =>
    (⟨409, .msg ("Conflito: Já existe um cliente com este " ++ target ++ ".")⟩, db)
  | none =>
    (⟨201, .cliente novo⟩, { db with clientes := db.clientes ++ [novo] })

/-- `GET /clientes/buscar` handler body (after validation): exact lookup by
`cpf_cnpj` when that query field is truthy, otherwise case-insensitive
substring search on `nome_completo` when that field is truthy; 404 when the
chosen lookup finds nothing. -/
def buscarClientes (db : DB) (nome_completo cpf_cnpj : Option String) : Response :=
  let cliente : Option Cliente :=
    if truthy cpf_cnpj then
      db.clientes.find? (fun c => c.cpf_cnpj == cpf_cnpj.getD "")
    else if truthy nome_completo then
      db.clientes.find? (fun c => containsInsensitive c.nome_completo (nome_completo.getD ""))
    else none
  match cliente with
  | none => ⟨404, .msg "Cliente não encontrado."⟩
  | some c => ⟨200, .cliente c⟩

/-- The `GET /clientes/buscar` route: fastify validates the query string
against `buscarClienteQuerySchema` before the handler runs; a validation
failure is answered 400 without reaching the handler (and hence without any
persistence call). -/
def buscarClientesRoute (db : DB) (nome_completo cpf_cnpj : Option String) : Response :=
  let errs := validateBuscar nome_completo cpf_cnpj
  if errs.isEmpty then buscarClientes db nome_completo cpf_cnpj
  else ⟨400, .errors errs⟩

/-- `PUT /clientes/:id` (full route set): no empty-payload guard; update,
mapping `P2025` to 404 and `P2002` to a message-only 409. -/
def putCliente (db : DB) (id : Nat) (b : UpdateClienteInput) : Response × DB :=
  match db.clientes.find? (fun c => c.id == id) with
  | none => (⟨404, .msg "Cliente não encontrado para atualização."⟩, db)
  | some c =>
    let c2 := applyUpdateCliente c b
    match clienteConflictTarget db id c2 with
    | some target =>
      (⟨409, .msg ("Conflito: Já existe um cliente com este " ++ target ++ ".")⟩, db)
    | none =>
      (⟨200, .cliente c2⟩,
       { db with clientes := db.clientes.map (fun o => if o.id == id then c2 else o) })

/-- `POST /acoes`: insert; `P2002` answers a message-only 409. -/
def postAcoes (db : DB) (b : CreateAcaoInput) : Response × DB :=
  let nova : Acao :=
    { id := freshAcaoId db, nome_ativo := b.nome_ativo,
      codigo_ticker := b.codigo_ticker, valor_atual := b.valor_atual,
      tipo_ativo := b.tipo_ativo, descricao := b.descricao }
  match acaoConflictTarget db nova.id nova with
  | some target =>
    (⟨409, .msg ("Conflito: Já existe uma ação com este " ++ target ++ ".")⟩, db)
  | none =>
    (⟨201, .acao nova⟩, { db with acoes := db.acoes ++ [nova] })

/-- `PUT /acoes/:id`: no empty-payload guard; update, mapping `P2025` to
404 and `P2002` to a message-only 409. -/
def putAcao (db : DB) (id : Nat) (b : UpdateAcaoInput) : Response × DB :=
  match db.acoes.find? (fun a => a.id == id) with
  | none => (⟨404, .msg "Ação não encontrada para atualização."⟩, db)
  | some a =>
    let a2 := applyUpdateAcao a b
    match acaoConflictTarget db id a2 with
    | some target =>
      (⟨409, .msg ("Conflito: Já existe uma ação com este " ++ target ++ ".")⟩, db)
    | none =>
      (⟨200, .acao a2⟩,
       { db with acoes := db.acoes.map (fun o => if o.id == id then a2 else o) })

/-- `DELETE /acoes/:id`: `P2025` (no such row) answers 404; `P2003` (the
restrict foreign key from `AlocacaoCliente.acaoId`) answers 409; otherwise
the row is deleted and the handler answers 200 with a confirmation. -/
def deleteAcao (db : DB) (id : Nat) : Response × DB :=
  match db.acoes.find? (fun a => a.id == id) with
  | none => (⟨404, .msg "Ação não encontrada para deleção."⟩, db)
  | some _ =>
    if db.alocacoes.any (fun al => al.acaoId == id) then
      (⟨409, .msg "Não é possível deletar a ação pois ela está alocada a um ou mais clientes."⟩, db)
    else
      (⟨200, .msg "Ação deletada com sucesso."⟩,
       { db with acoes := db.acoes.filter (fun a => a.id != id) })

/-- `POST /clientes/:id/alocacoes`: check the cliente exists (404), then
the acao (404), then insert; the `(clienteId, acaoId)` unique pair raises
`P2002` (409); on success 201 with the new row and its included acao. -/
def postClienteAlocacoes (db : DB) (clienteId : Nat) (b : CreateAlocacaoInput) :
    Response × DB :=
  match db.clientes.find? (fun c => c.id == clienteId) with
  | none => (⟨404, .msg "Cliente não encontrado."⟩, db)
  | some _ =>
    match db.acoes.find? (fun a => a.id == b.acaoId) with
    | none => (⟨404, .msg "Ação não encontrada."⟩, db)
    | some acao =>
      if db.alocacoes.any (fun al => al.clienteId == clienteId && al.acaoId == b.acaoId) then
        (⟨409, .msg "Este cliente já possui uma alocação para esta ação."⟩, db)
      else
        let nova : AlocacaoCliente :=
          { id := freshAlocacaoId db, clienteId := clienteId, acaoId := b.acaoId,
            quantidade := b.quantidade,
            valor_medio_aquisicao := b.valor_medio_aquisicao,
            data_ultima_compra := b.data_ultima_compra }
        (⟨201, .alocacao nova (some acao)⟩,
         { db with alocacoes := db.alocacoes ++ [nova] })

/-- `GET /clientes/:id/alocacoes`: list the cliente's alocacoes, each with
the selected acao fields; no check that the cliente exists. -/
def getClienteAlocacoes (db : DB) (clienteId : Nat) : Response :=
  let alocacoes := (db.alocacoes.filter (fun al => al.clienteId == clienteId)).map
    (fun al => (al, (db.acoes.find? (fun a => a.id == al.acaoId)).map acaoView))
  ⟨200, .alocacaoList alocacoes⟩

/-- `PUT /alocacoes/:id`: no empty-payload guard; update mapping `P2025`
to 404; 200 with the updated row (and its included acao) otherwise. -/
def putAlocacao (db : DB) (id : Nat) (b : UpdateAlocacaoInput) : Response × DB :=
  match db.alocacoes.find? (fun al => al.id == id) with
  | none => (⟨404, .msg "Alocação não encontrada para atualização."⟩, db)
  | some al =>
    let al2 := applyUpdateAlocacao al b
    (⟨200, .alocacao al2 (db.acoes.find? (fun a => a.id == al2.acaoId))⟩,
     { db with alocacoes := db.alocacoes.map (fun o => if o.id == id then al2 else o) })

/-! ## Request handlers — first revision of `server.ts` (cliente only) -/

/-- `POST /clientes` in the first revision: the 409 branch also sends a
`fields` indicator with the violated constraint target. -/
def postClientesV1 (db : DB) (b : CreateClienteInput) : Response × DB :=
  let novo : Cliente :=
    { id := freshClienteId db, nome_completo := b.nome_completo,
      cpf_cnpj := b.cpf_cnpj, telefone := b.telefone,
      data_nascimento := b.data_nascimento, email := b.email }
  match clienteConflictTarget db novo.id novo with
  | some target =>
    (⟨409, .msgFields ("Erro de conflito: Já existe um cliente com este " ++ target ++ ".") target⟩, db)
  | none =>
    (⟨201, .cliente novo⟩, { db with clientes := db.clientes ++ [novo] })

/-- `PUT /clientes/:id` in the first revision: guards against an empty
payload with 400 before touching the database, and its 409 branch sends a
`fields` indicator. -/
def putClienteV1 (db : DB) (id : Nat) (b : UpdateClienteInput) : Response × DB :=
  if b.isEmpty then
    (⟨400, .msg "Nenhum dado fornecido para atualização."⟩, db)
  else
    match db.clientes.find? (fun c => c.id == id) with
    | none => (⟨404, .msg "Cliente não encontrado para atualização."⟩, db)
    | some c =>
      let c2 := applyUpdateCliente c b
      match clienteConflictTarget db id c2 with
      | some target =>
        (⟨409, .msgFields ("Erro de conflito: Já existe um cliente com este " ++ target ++ ".") target⟩, db)
      | none =>
        (⟨200, .cliente c2⟩,
         { db with clientes := db.clientes.map (fun o => if o.id == id then c2 else o) })

/-! ## Sample data -/

/-- A sample cliente row. -/
def cliente1 : Cliente :=
  { id := 1, nome_completo := "John Smith", cpf_cnpj := "12345678901",
    telefone := "1123456789", data_nascimento := 5, email := "john@example.com" }

/-- A sample acao row. -/
def acao1 : Acao :=
  { id := 1, nome_ativo := "Petrobras PN", codigo_ticker := "PETR4",
    valor_atual := 30, tipo_ativo := some "stock", descricao := none }

/-- A sample alocacao row linking `cliente1` to `acao1`. -/
def aloc1 : AlocacaoCliente :=
  { id := 1, clienteId := 1, acaoId := 1, quantidade := 100,
    valor_medio_aquisicao := 28, data_ultima_compra := 10 }

/-- Sample database with one row in each table. -/
def dbSample : DB := { clientes := [cliente1], acoes := [acao1], alocacoes := [aloc1] }

/-- Sample database whose acao has no alocacao referencing it. -/
def dbNoAloc : DB := { clientes := [cliente1], acoes := [acao1], alocacoes := [] }

/-- A create-cliente payload clashing with `cliente1` on `cpf_cnpj`. -/
def clienteDupInput : CreateClienteInput :=
  { nome_completo := "Jane Roe", cpf_cnpj := "12345678901",
    telefone := "1199999999", data_nascimento := 7, email := "jane@example.com" }

/-! ## C6 — the cpf_cnpj field accepts exactly the 11- and 14-digit strings -/

/-- C6: for every string `s`, the cliente create and update schemas accept
`s` as `cpf_cnpj` iff `s` consists of exactly 11 or exactly 14 digits: the
min-11/max-18 length bounds together with the regex carve out exactly this
set. -/
theorem cpfCnpjAccepts_spec (s : String) :
    (acceptCpfCnpjCreate s = true ↔
      ((s.length = 11 ∨ s.length = 14) ∧ ∀ c ∈ s.toList, c.isDigit = true)) ∧
    (acceptCpfCnpjUpdate s = true ↔
      ((s.length = 11 ∨ s.length = 14) ∧ ∀ c ∈ s.toList, c.isDigit = true)) := by
  have key : (decide (11 ≤ s.length) && decide (s.length ≤ 18) && matchCpfCnpjRegex s) = true ↔
      ((s.length = 11 ∨ s.length = 14) ∧ ∀ c ∈ s.toList, c.isDigit = true) := by
    simp only [matchCpfCnpjRegex, Bool.and_eq_true, Bool.or_eq_true,
      decide_eq_true_eq, beq_iff_eq, List.all_eq_true]
    constructor
    · rintro ⟨⟨-, -⟩, ⟨hl, hd⟩ | ⟨hl, hd⟩⟩
      · exact ⟨Or.inl hl, hd⟩
      · exact ⟨Or.inr hl, hd⟩
    · rintro ⟨hl | hl, hd⟩
      · exact ⟨⟨by omega, by omega⟩, Or.inl ⟨hl, hd⟩⟩
      · exact ⟨⟨by omega, by omega⟩, Or.inr ⟨hl, hd⟩⟩
  exact ⟨key, key⟩

/-! ## C10 — truthiness, not presence, in the search-query refinements -/

/-- C10: an empty-string value behaves as an absent field in the
`buscarClienteQuerySchema` refinements: empty `nome_completo` together
with a non-empty `cpf_cnpj` passes validation, while an empty
`nome_completo` alone fails exactly as when neither field is supplied. -/
theorem buscarTruthiness_spec (s : String) (hs : s ≠ "") :
    validateBuscar (some "") (some s) = [] ∧
    validateBuscar (some "") none = validateBuscar none none ∧
    validateBuscar (some "") none ≠ [] := by
  refine ⟨?_, rfl, by decide⟩
  simp [validateBuscar, truthy, hs]

/-- Witness for C10 at the sample tax identifier. -/
theorem buscarTruthiness_spec_witness :
    validateBuscar (some "") (some "12345678901") = [] ∧
    validateBuscar (some "") none ≠ [] :=
  ⟨(buscarTruthiness_spec "12345678901" (by decide)).1,
   (buscarTruthiness_spec "12345678901" (by decide)).2.2⟩

/-! ## C4 — search-query validation -/

/-- C4 counterexample: both query fields are supplied (one as the empty
string) and validation nevertheless succeeds, so "validation succeeds iff
exactly one of the two query fields is supplied" is false as stated. -/
theorem buscarValidation_counterexample :
    (some "" : Option String).isSome = true ∧
    (some "12345678901" : Option String).isSome = true ∧
    validateBuscar (some "") (some "12345678901") = [] := by
  refine ⟨rfl, rfl, rfl⟩

/-- C4 amended: validation succeeds iff exactly one of the two query
fields is supplied with a non-empty (truthy) value; when it fails, the
route answers 400 carrying the refinement messages, for every database —
in particular without any persistence call. -/
theorem buscarValidation_spec (nome_completo cpf_cnpj : Option String) :
    (validateBuscar nome_completo cpf_cnpj = [] ↔
      truthy nome_completo ≠ truthy cpf_cnpj) ∧
    (validateBuscar nome_completo cpf_cnpj ≠ [] →
      ∀ db : DB, buscarClientesRoute db nome_completo cpf_cnpj =
        ⟨400, .errors (validateBuscar nome_completo cpf_cnpj)⟩) := by
  constructor
  · cases hn : truthy nome_completo <;> cases hc : truthy cpf_cnpj <;>
      simp [validateBuscar, hn, hc]
  · intro h db
    simp only [buscarClientesRoute]
    rw [if_neg (by simpa [List.isEmpty_iff] using h)]

/-- Witness for C4 at the neither-field-supplied query against the sample
database. -/
theorem buscarValidation_spec_witness :
    validateBuscar none none ≠ [] ∧
    buscarClientesRoute dbSample none none = ⟨400, .errors (validateBuscar none none)⟩ :=
  ⟨by decide, (buscarValidation_spec none none).2 (by decide) dbSample⟩

/-! ## C5 — search handler dispatch -/

/-- C5 counterexample: a validated query in which `cpf_cnpj` is present
(as the empty string) next to a non-empty `nome_completo`; no cliente of
the sample database has an empty `cpf_cnpj`, so an exact tax-identifier
search would answer 404, yet the handler answers 200 — it dispatched on
the name instead, so "if cpf_cnpj is present the handler searches by exact
tax-identifier match" is false as stated. -/
theorem buscarHandler_counterexample :
    validateBuscar (some "John") (some "") = [] ∧
    (some "" : Option String).isSome = true ∧
    (∀ c ∈ dbSample.clientes, c.cpf_cnpj ≠ "") ∧
    (buscarClientes dbSample (some "John") (some "")).status = 200 := by
  refine ⟨rfl, rfl, by decide, by decide⟩

/-- C5 amended: if `cpf_cnpj` is supplied non-empty the handler searches
by exact tax-identifier match (taking precedence whatever `nome_completo`
holds); otherwise, when `nome_completo` is supplied non-empty, it searches
by case-insensitive substring match on the full name; either way it
answers 200 with the first matching cliente, or 404 when none matches. -/
theorem buscarHandler_spec (db : DB) (nome_completo cpf_cnpj : Option String) :
    (∀ s, cpf_cnpj = some s → s ≠ "" →
      ((∃ c, db.clientes.find? (fun c => c.cpf_cnpj == s) = some c ∧
          c ∈ db.clientes ∧ c.cpf_cnpj = s ∧
          buscarClientes db nome_completo cpf_cnpj = ⟨200, .cliente c⟩) ∨
       ((∀ c ∈ db.clientes, c.cpf_cnpj ≠ s) ∧
          buscarClientes db nome_completo cpf_cnpj = ⟨404, .msg "Cliente não encontrado."⟩))) ∧
    (truthy cpf_cnpj = false →
      ∀ s, nome_completo = some s → s ≠ "" →
      ((∃ c, db.clientes.find? (fun c => containsInsensitive c.nome_completo s) = some c ∧
          c ∈ db.clientes ∧ containsInsensitive c.nome_completo s = true ∧
          buscarClientes db nome_completo cpf_cnpj = ⟨200, .cliente c⟩) ∨
       ((∀ c ∈ db.clientes, containsInsensitive c.nome_completo s = false) ∧
          buscarClientes db nome_completo cpf_cnpj = ⟨404, .msg "Cliente não encontrado."⟩))) := by
  constructor
  · rintro s rfl hs
    have ht : truthy (some s) = true := by simp [truthy, hs]
    cases h : db.clientes.find? (fun c => c.cpf_cnpj == s) with
    | none =>
      refine Or.inr ⟨?_, ?_⟩
      · intro c hc
        have := List.find?_eq_none.mp h c hc
        simpa using this
      · simp [buscarClientes, ht, Option.getD, h]
    | some c =>
      refine Or.inl ⟨c, rfl, List.mem_of_find?_eq_some h, ?_, ?_⟩
      · have := List.find?_some h
        simpa using this
      · simp [buscarClientes, ht, Option.getD, h]
  · rintro hc s rfl hs
    have ht : truthy (some s) = true := by simp [truthy, hs]
    cases h : db.clientes.find? (fun c => containsInsensitive c.nome_completo s) with
    | none =>
      refine Or.inr ⟨?_, ?_⟩
      · intro c hcm
        have := List.find?_eq_none.mp h c hcm
        simpa using this
      · simp [buscarClientes, hc, ht, Option.getD, h]
    | some c =>
      refine Or.inl ⟨c, rfl, List.mem_of_find?_eq_some h, ?_, ?_⟩
      · have := List.find?_some h
        simpa using this
      · simp [buscarClientes, hc, ht, Option.getD, h]

/-- Witness for C5: exact search by the sample tax identifier. -/
theorem buscarHandler_spec_witness :
    (∃ c, dbSample.clientes.find? (fun c => c.cpf_cnpj == "12345678901") = some c ∧
        c ∈ dbSample.clientes ∧ c.cpf_cnpj = "12345678901" ∧
        buscarClientes dbSample none (some "12345678901") = ⟨200, .cliente c⟩) ∨
    ((∀ c ∈ dbSample.clientes, c.cpf_cnpj ≠ "12345678901") ∧
        buscarClientes dbSample none (some "12345678901") = ⟨404, .msg "Cliente não encontrado."⟩) :=
  (buscarHandler_spec dbSample none (some "12345678901")).1 "12345678901" rfl (by decide)

/-! ## C2 — empty-payload updates -/

/-- Primary-key well-formedness of the database: row ids are unique within
each table. -/
def DB.WF (db : DB) : Prop :=
  (db.clientes.map Cliente.id).Nodup ∧ (db.acoes.map Acao.id).Nodup ∧
  (db.alocacoes.map AlocacaoCliente.id).Nodup

instance (db : DB) : Decidable db.WF := by
  unfold DB.WF; infer_instance

/-- Replacing every row that carries the id of an already-found row by that
row is the identity on a table with unique ids. -/
theorem mapReplaceFoundSelf {α : Type} (key : α → Nat) (l : List α) (k : Nat) (c : α)
    (hnd : (l.map key).Nodup) (hmem : c ∈ l) (hkey : key c = k) :
    l.map (fun o => if key o = k then c else o) = l := by
  have step : ∀ o ∈ l, (if key o = k then c else o) = o := by
    intro o ho
    by_cases h : key o = k
    · rw [if_pos h]
      exact List.inj_on_of_nodup_map hnd hmem ho (by rw [hkey, h])
    · rw [if_neg h]
  suffices h : ∀ m : List α, (∀ o ∈ m, (if key o = k then c else o) = o) →
      m.map (fun o => if key o = k then c else o) = m from h l step
  intro m
  induction m with
  | nil => intro _; rfl
  | cons a t ih =>
    intro hm
    simp only [List.map_cons, hm a (List.mem_cons_self a t), List.cons.injEq, true_and]
    exact ih (fun o ho => hm o (List.mem_cons_of_mem a ho))

/-- C2 counterexample: in the full route set, `PUT /acoes/:id` with an
empty validated body does not answer 400 — it proceeds to the update and
answers 200 on the sample database, so the claimed guard on all three
update routes is false as stated. -/
theorem emptyUpdate_counterexample :
    UpdateAcaoInput.isEmpty {} = true ∧
    (putAcao dbSample 1 {}).1.status = 200 ∧
    (putAcao dbSample 1 {}).1.status ≠ 400 := by
  refine ⟨rfl, by decide, by decide⟩

/-- C2 amended: only the first-revision `PUT /clientes/:id` handler guards
the empty payload, answering 400 and leaving the database untouched; the
full-route-set update handlers (clientes, acoes, alocacoes) run the
persistence call even on an empty body, never answer 400, and modify no
record. -/
theorem emptyUpdate_guard_spec (db : DB) (id : Nat)
    (bc : UpdateClienteInput) (ba : UpdateAcaoInput) (bal : UpdateAlocacaoInput)
    (hwf : db.WF)
    (hc : bc.isEmpty = true) (ha : ba.isEmpty = true) (hal : bal.isEmpty = true) :
    putClienteV1 db id bc = (⟨400, .msg "Nenhum dado fornecido para atualização."⟩, db) ∧
    ((putCliente db id bc).2 = db ∧ (putCliente db id bc).1.status ≠ 400) ∧
    ((putAcao db id ba).2 = db ∧ (putAcao db id ba).1.status ≠ 400) ∧
    ((putAlocacao db id bal).2 = db ∧ (putAlocacao db id bal).1.status ≠ 400) := by
  obtain ⟨nc, cc, tc, dc, ec⟩ := bc
  simp only [UpdateClienteInput.isEmpty, Bool.and_eq_true, Option.isNone_iff_eq_none] at hc
  obtain ⟨⟨⟨⟨hc1, hc2⟩, hc3⟩, hc4⟩, hc5⟩ := hc
  subst hc1 hc2 hc3 hc4 hc5
  obtain ⟨na, ca, va, ta, da⟩ := ba
  simp only [UpdateAcaoInput.isEmpty, Bool.and_eq_true, Option.isNone_iff_eq_none] at ha
  obtain ⟨⟨⟨⟨ha1, ha2⟩, ha3⟩, ha4⟩, ha5⟩ := ha
  subst ha1 ha2 ha3 ha4 ha5
  obtain ⟨ql, vl, dl⟩ := bal
  simp only [UpdateAlocacaoInput.isEmpty, Bool.and_eq_true, Option.isNone_iff_eq_none] at hal
  obtain ⟨⟨hal1, hal2⟩, hal3⟩ := hal
  subst hal1 hal2 hal3
  refine ⟨by simp [putClienteV1, UpdateClienteInput.isEmpty], ?_, ?_, ?_⟩
  · cases hf : db.clientes.find? (fun c => c.id == id) with
    | none => simp [putCliente, hf]
    | some c =>
      have hc2 : applyUpdateCliente c {} = c := rfl
      simp only [putCliente, hf]
      rw [hc2]
      cases ht : clienteConflictTarget db id c with
      | some target => simp [ht]
      | none =>
        have hkey : c.id = id := by have := List.find?_some hf; simpa using this
        have hmap := mapReplaceFoundSelf Cliente.id db.clientes id c hwf.1
          (List.mem_of_find?_eq_some hf) hkey
        simp [ht, hmap]
  · cases hf : db.acoes.find? (fun a => a.id == id) with
    | none => simp [putAcao, hf]
    | some a =>
      have ha2 : applyUpdateAcao a {} = a := rfl
      simp only [putAcao, hf]
      rw [ha2]
      cases ht : acaoConflictTarget db id a with
      | some target => simp [ht]
      | none =>
        have hkey : a.id = id := by have := List.find?_some hf; simpa using this
        have hmap := mapReplaceFoundSelf Acao.id db.acoes id a hwf.2.1
          (List.mem_of_find?_eq_some hf) hkey
        simp [ht, hmap]
  · cases hf : db.alocacoes.find? (fun al => al.id == id) with
    | none => simp [putAlocacao, hf]
    | some al =>
      have hal2 : applyUpdateAlocacao al {} = al := rfl
      have hkey : al.id = id := by have := List.find?_some hf; simpa using this
      have hmap := mapReplaceFoundSelf AlocacaoCliente.id db.alocacoes id al hwf.2.2
        (List.mem_of_find?_eq_some hf) hkey
      simp only [putAlocacao, hf]
      rw [hal2]
      simp [hmap]

/-- Witness for C2 on the sample database. -/
theorem emptyUpdate_guard_spec_witness :
    putClienteV1 dbSample 1 {} = (⟨400, .msg "Nenhum dado fornecido para atualização."⟩, dbSample) ∧
    (putAcao dbSample 1 {}).2 = dbSample :=
  ⟨(emptyUpdate_guard_spec dbSample 1 {} {} {} (by decide) rfl rfl rfl).1,
   (emptyUpdate_guard_spec dbSample 1 {} {} {} (by decide) rfl rfl rfl).2.2.1.1⟩

/-! ## C3 — conflict response bodies -/

/-- A dummy create-acao payload used to instantiate universally quantified
handler arguments in witnesses. -/
def acaoInputSample : CreateAcaoInput :=
  { nome_ativo := "Vale ON", codigo_ticker := "VALE3", valor_atual := 60 }

/-- A create-alocacao payload referencing `acao1`. -/
def alocacaoInputSample : CreateAlocacaoInput :=
  { acaoId := 1, quantidade := 100, valor_medio_aquisicao := 28,
    data_ultima_compra := 10 }

/-- C3 counterexample: the full-route-set `POST /clientes` conflict
response carries a `message` but no `fields` indicator, so "every 409
response contains both" is false as stated. -/
theorem conflictBody_counterexample :
    (postClientes dbSample clienteDupInput).1.status = 409 ∧
    (postClientes dbSample clienteDupInput).1.body.hasMessage = true ∧
    (postClientes dbSample clienteDupInput).1.body.hasFields = false := by
  refine ⟨by decide, by decide, by decide⟩

/-- C3 amended: every 409 conflict response of the modelled handlers
carries a `message` string, but the `fields` indicator naming the
offending constraint appears only in the first-revision cliente create and
update conflict branches; the full-route-set conflict bodies carry the
message alone. -/
theorem conflictBody_spec (db : DB) (id : Nat) (bc : CreateClienteInput)
    (uc : UpdateClienteInput) (ba : CreateAcaoInput) (ua : UpdateAcaoInput)
    (bal : CreateAlocacaoInput) :
    ((postClientes db bc).1.status = 409 →
      (postClientes db bc).1.body.hasMessage = true ∧
      (postClientes db bc).1.body.hasFields = false) ∧
    ((putCliente db id uc).1.status = 409 →
      (putCliente db id uc).1.body.hasMessage = true ∧
      (putCliente db id uc).1.body.hasFields = false) ∧
    ((postAcoes db ba).1.status = 409 →
      (postAcoes db ba).1.body.hasMessage = true ∧
      (postAcoes db ba).1.body.hasFields = false) ∧
    ((putAcao db id ua).1.status = 409 →
      (putAcao db id ua).1.body.hasMessage = true ∧
      (putAcao db id ua).1.body.hasFields = false) ∧
    ((deleteAcao db id).1.status = 409 →
      (deleteAcao db id).1.body.hasMessage = true ∧
      (deleteAcao db id).1.body.hasFields = false) ∧
    ((postClienteAlocacoes db id bal).1.status = 409 →
      (postClienteAlocacoes db id bal).1.body.hasMessage = true ∧
      (postClienteAlocacoes db id bal).1.body.hasFields = false) ∧
    ((postClientesV1 db bc).1.status = 409 →
      (postClientesV1 db bc).1.body.hasMessage = true ∧
      (postClientesV1 db bc).1.body.hasFields = true) ∧
    ((putClienteV1 db id uc).1.status = 409 →
      (putClienteV1 db id uc).1.body.hasMessage = true ∧
      (putClienteV1 db id uc).1.body.hasFields = true) := by
  refine ⟨?_, ?_, ?_, ?_, ?_, ?_, ?_, ?_⟩
  · intro h
    cases ht : clienteConflictTarget db (freshClienteId db)
        { id := freshClienteId db, nome_completo := bc.nome_completo,
          cpf_cnpj := bc.cpf_cnpj, telefone := bc.telefone,
          data_nascimento := bc.data_nascimento, email := bc.email } with
    | some target => simp [postClientes, ht, Body.hasMessage, Body.hasFields]
    | none => simp [postClientes, ht] at h
  · cases hf : db.clientes.find? (fun c => c.id == id) with
    | none => intro h; simp [putCliente, hf] at h
    | some c =>
      cases ht : clienteConflictTarget db id (applyUpdateCliente c uc) with
      | some target =>
        intro h
        simp [putCliente, hf, ht, Body.hasMessage, Body.hasFields]
      | none => intro h; simp [putCliente, hf, ht] at h
  · intro h
    cases ht : acaoConflictTarget db (freshAcaoId db)
        { id := freshAcaoId db, nome_ativo := ba.nome_ativo,
          codigo_ticker := ba.codigo_ticker, valor_atual := ba.valor_atual,
          tipo_ativo := ba.tipo_ativo, descricao := ba.descricao } with
    | some target => simp [postAcoes, ht, Body.hasMessage, Body.hasFields]
    | none => simp [postAcoes, ht] at h
  · cases hf : db.acoes.find? (fun a => a.id == id) with
    | none => intro h; simp [putAcao, hf] at h
    | some a =>
      cases ht : acaoConflictTarget db id (applyUpdateAcao a ua) with
      | some target =>
        intro h
        simp [putAcao, hf, ht, Body.hasMessage, Body.hasFields]
      | none => intro h; simp [putAcao, hf, ht] at h
  · cases hf : db.acoes.find? (fun a => a.id == id) with
    | none => intro h; simp [deleteAcao, hf] at h
    | some a =>
      cases hr : db.alocacoes.any (fun al => al.acaoId == id) with
      | true =>
        intro h
        simp [deleteAcao, hf, hr, Body.hasMessage, Body.hasFields]
      | false => intro h; simp [deleteAcao, hf, hr] at h
  · cases hf : db.clientes.find? (fun c => c.id == id) with
    | none => intro h; simp [postClienteAlocacoes, hf] at h
    | some c =>
      cases hg : db.acoes.find? (fun a => a.id == bal.acaoId) with
      | none => intro h; simp [postClienteAlocacoes, hf, hg] at h
      | some acao =>
        cases hr : db.alocacoes.any
            (fun al => al.clienteId == id && al.acaoId == bal.acaoId) with
        | true =>
          intro h
          simp [postClienteAlocacoes, hf, hg, hr, Body.hasMessage, Body.hasFields]
        | false => intro h; simp [postClienteAlocacoes, hf, hg, hr] at h
  · intro h
    cases ht : clienteConflictTarget db (freshClienteId db)
        { id := freshClienteId db, nome_completo := bc.nome_completo,
          cpf_cnpj := bc.cpf_cnpj, telefone := bc.telefone,
          data_nascimento := bc.data_nascimento, email := bc.email } with
    | some target => simp [postClientesV1, ht, Body.hasMessage, Body.hasFields]
    | none => simp [postClientesV1, ht] at h
  · cases he : uc.isEmpty with
    | true => intro h; simp [putClienteV1, he] at h
    | false =>
      cases hf : db.clientes.find? (fun c => c.id == id) with
      | none => intro h; simp [putClienteV1, he, hf] at h
      | some c =>
        cases ht : clienteConflictTarget db id (applyUpdateCliente c uc) with
        | some target =>
          intro h
          simp [putClienteV1, he, hf, ht, Body.hasMessage, Body.hasFields]
        | none => intro h; simp [putClienteV1, he, hf, ht] at h

/-- Witness for C3: the V1 create conflict carries `fields`, the V2 one a
message, on the sample duplicate payload. -/
theorem conflictBody_spec_witness :
    (postClientes dbSample clienteDupInput).1.body.hasMessage = true ∧
    (postClientesV1 dbSample clienteDupInput).1.body.hasFields = true :=
  ⟨((conflictBody_spec dbSample 1 clienteDupInput {} acaoInputSample {}
      alocacaoInputSample).1 (by decide)).1,
   ((conflictBody_spec dbSample 1 clienteDupInput {} acaoInputSample {}
      alocacaoInputSample).2.2.2.2.2.2.1 (by decide)).2⟩

/-! ## C1 — create allocation under a cliente -/

/-- C1: `POST /clientes/:id/alocacoes` with a validated body first answers
404 (inserting nothing) when the cliente is missing, then 404 (inserting
nothing) when the acao is missing, 409 when the (cliente, acao) pair is
already allocated, and otherwise 201 with the new allocation carrying the
request's fields together with the referenced acao record (hence its name,
ticker and current price), appended to the table. -/
theorem postClienteAlocacoes_spec (db : DB) (clienteId : Nat)
    (b : CreateAlocacaoInput) (_hb : b.Valid) :
    (db.clientes.find? (fun c => c.id == clienteId) = none →
      postClienteAlocacoes db clienteId b = (⟨404, .msg "Cliente não encontrado."⟩, db)) ∧
    ((db.clientes.find? (fun c => c.id == clienteId)).isSome = true →
      db.acoes.find? (fun a => a.id == b.acaoId) = none →
      postClienteAlocacoes db clienteId b = (⟨404, .msg "Ação não encontrada."⟩, db)) ∧
    ((db.clientes.find? (fun c => c.id == clienteId)).isSome = true →
      (db.acoes.find? (fun a => a.id == b.acaoId)).isSome = true →
      db.alocacoes.any (fun al => al.clienteId == clienteId && al.acaoId == b.acaoId) = true →
      postClienteAlocacoes db clienteId b =
        (⟨409, .msg "Este cliente já possui uma alocação para esta ação."⟩, db)) ∧
    (∀ acao, (db.clientes.find? (fun c => c.id == clienteId)).isSome = true →
      db.acoes.find? (fun a => a.id == b.acaoId) = some acao →
      db.alocacoes.any (fun al => al.clienteId == clienteId && al.acaoId == b.acaoId) = false →
      ∃ nova : AlocacaoCliente,
        postClienteAlocacoes db clienteId b =
          (⟨201, .alocacao nova (some acao)⟩, { db with alocacoes := db.alocacoes ++ [nova] }) ∧
        nova.clienteId = clienteId ∧ nova.acaoId = b.acaoId ∧
        nova.quantidade = b.quantidade ∧
        nova.valor_medio_aquisicao = b.valor_medio_aquisicao ∧
        nova.data_ultima_compra = b.data_ultima_compra) := by
  refine ⟨?_, ?_, ?_, ?_⟩
  · intro h
    simp [postClienteAlocacoes, h]
  · intro hc ha
    obtain ⟨c, hc⟩ := Option.isSome_iff_exists.mp hc
    simp [postClienteAlocacoes, hc, ha]
  · intro hc ha hr
    obtain ⟨c, hc⟩ := Option.isSome_iff_exists.mp hc
    obtain ⟨acao, ha⟩ := Option.isSome_iff_exists.mp ha
    simp [postClienteAlocacoes, hc, ha, hr]
  · intro acao hc ha hr
    obtain ⟨c, hc⟩ := Option.isSome_iff_exists.mp hc
    refine ⟨⟨freshAlocacaoId db, clienteId, b.acaoId, b.quantidade,
      b.valor_medio_aquisicao, b.data_ultima_compra⟩, ?_, rfl, rfl, rfl, rfl, rfl⟩
    simp [postClienteAlocacoes, hc, ha, hr]

/-- Witness for C1: the success branch on the sample database without the
existing allocation. -/
theorem postClienteAlocacoes_spec_witness :
    ∃ nova : AlocacaoCliente,
      postClienteAlocacoes dbNoAloc 1 alocacaoInputSample =
        (⟨201, .alocacao nova (some acao1)⟩,
         { dbNoAloc with alocacoes := dbNoAloc.alocacoes ++ [nova] }) ∧
      nova.clienteId = 1 ∧ nova.acaoId = alocacaoInputSample.acaoId ∧
      nova.quantidade = alocacaoInputSample.quantidade ∧
      nova.valor_medio_aquisicao = alocacaoInputSample.valor_medio_aquisicao ∧
      nova.data_ultima_compra = alocacaoInputSample.data_ultima_compra :=
  (postClienteAlocacoes_spec dbNoAloc 1 alocacaoInputSample (by decide)).2.2.2
    acao1 (by decide) (by decide) (by decide)

/-! ## C7 — deleting an acao -/

/-- C7: `DELETE /acoes/:id` answers 404 when the acao is missing, 409 with
an explanatory message — changing nothing — when some alocacao still
references it, and otherwise removes the acao and answers 200 with a
confirmation message. -/
theorem deleteAcao_spec (db : DB) (id : Nat) :
    (db.acoes.find? (fun a => a.id == id) = none →
      deleteAcao db id = (⟨404, .msg "Ação não encontrada para deleção."⟩, db)) ∧
    ((db.acoes.find? (fun a => a.id == id)).isSome = true →
      db.alocacoes.any (fun al => al.acaoId == id) = true →
      deleteAcao db id =
        (⟨409, .msg "Não é possível deletar a ação pois ela está alocada a um ou mais clientes."⟩, db)) ∧
    ((db.acoes.find? (fun a => a.id == id)).isSome = true →
      db.alocacoes.any (fun al => al.acaoId == id) = false →
      deleteAcao db id =
        (⟨200, .msg "Ação deletada com sucesso."⟩,
         { db with acoes := db.acoes.filter (fun a => a.id != id) })) := by
  refine ⟨?_, ?_, ?_⟩
  · intro h
    simp [deleteAcao, h]
  · intro hf hr
    obtain ⟨a, hf⟩ := Option.isSome_iff_exists.mp hf
    simp [deleteAcao, hf, hr]
  · intro hf hr
    obtain ⟨a, hf⟩ := Option.isSome_iff_exists.mp hf
    simp [deleteAcao, hf, hr]

/-- Witness for C7: the restrict branch (409, database untouched) on the
sample database, where `aloc1` references `acao1`. -/
theorem deleteAcao_spec_witness :
    deleteAcao dbSample 1 =
      (⟨409, .msg "Não é possível deletar a ação pois ela está alocada a um ou mais clientes."⟩,
       dbSample) :=
  (deleteAcao_spec dbSample 1).2.1 (by decide) (by decide)

/-! ## C8 — listing a cliente's alocacoes -/

/-- C8: `GET /clientes/:id/alocacoes` always answers 200; its result is
independent of the cliente table (no existence check); the returned items
are exactly the cliente's alocacoes, each joined with the selected acao
fields; and under referential integrity a nonexistent cliente id yields
the empty list (with status 200), not 404. -/
theorem getClienteAlocacoes_spec (db : DB) (cid : Nat) :
    (getClienteAlocacoes db cid).status = 200 ∧
    (∀ cs : List Cliente, getClienteAlocacoes { db with clientes := cs } cid =
      getClienteAlocacoes db cid) ∧
    (∀ l, (getClienteAlocacoes db cid).body = .alocacaoList l →
      (∀ p ∈ l, p.1 ∈ db.alocacoes ∧ p.1.clienteId = cid ∧
        p.2 = (db.acoes.find? (fun a => a.id == p.1.acaoId)).map acaoView) ∧
      (∀ al ∈ db.alocacoes, al.clienteId = cid →
        (al, (db.acoes.find? (fun a => a.id == al.acaoId)).map acaoView) ∈ l)) ∧
    ((∀ c ∈ db.clientes, c.id ≠ cid) →
      (∀ al ∈ db.alocacoes, ∃ c ∈ db.clientes, al.clienteId = c.id) →
      getClienteAlocacoes db cid = ⟨200, .alocacaoList []⟩) := by
  refine ⟨rfl, fun cs => rfl, ?_, ?_⟩
  · intro l hl
    have hl2 : l = (db.alocacoes.filter (fun al => al.clienteId == cid)).map
        (fun al => (al, (db.acoes.find? (fun a => a.id == al.acaoId)).map acaoView)) := by
      have := hl
      simp only [getClienteAlocacoes, Body.alocacaoList.injEq] at this
      exact this.symm
    subst hl2
    constructor
    · intro p hp
      obtain ⟨al, hal, rfl⟩ := List.mem_map.mp hp
      obtain ⟨hmem, hcid⟩ := List.mem_filter.mp hal
      exact ⟨hmem, by simpa using hcid, rfl⟩
    · intro al hal hcid
      exact List.mem_map.mpr ⟨al, List.mem_filter.mpr ⟨hal, by simpa using hcid⟩, rfl⟩
  · intro hnc hint
    have hfil : db.alocacoes.filter (fun al => al.clienteId == cid) = [] := by
      refine List.filter_eq_nil_iff.mpr ?_
      intro al hal
      obtain ⟨c, hc, hye⟩ := hint al hal
      simpa [hye] using hnc c hc
    simp [getClienteAlocacoes, hfil]

/-- Witness for C8: on the sample database, a request for nonexistent
cliente id 2 answers 200 with the empty list. -/
theorem getClienteAlocacoes_spec_witness :
    getClienteAlocacoes dbSample 2 = ⟨200, .alocacaoList []⟩ :=
  (getClienteAlocacoes_spec dbSample 2).2.2.2 (by decide) (by decide)

/-! ## C9 — allocation update cannot change the linkage -/

/-- C9: the update-allocation schema strips `acaoId` and `clienteId` from
the body, and `PUT /alocacoes/:id` leaves the cliente and acao tables
untouched and preserves every alocacao's id, cliente reference and acao
reference — both in the stored table and in the response body. -/
theorem putAlocacao_frame (db : DB) (id : Nat) (raw : RawUpdateAlocacaoBody) :
    parseUpdateAlocacao raw =
      parseUpdateAlocacao { raw with acaoId := none, clienteId := none } ∧
    (putAlocacao db id (parseUpdateAlocacao raw)).2.clientes = db.clientes ∧
    (putAlocacao db id (parseUpdateAlocacao raw)).2.acoes = db.acoes ∧
    (∀ x ∈ (putAlocacao db id (parseUpdateAlocacao raw)).2.alocacoes,
      ∃ y ∈ db.alocacoes, x.id = y.id ∧ x.clienteId = y.clienteId ∧ x.acaoId = y.acaoId) ∧
    (∀ al acaoOpt, (putAlocacao db id (parseUpdateAlocacao raw)).1.body = .alocacao al acaoOpt →
      ∃ y ∈ db.alocacoes, al.id = y.id ∧ al.clienteId = y.clienteId ∧ al.acaoId = y.acaoId) := by
  have h2 : (putAlocacao db id (parseUpdateAlocacao raw)).2.clientes = db.clientes := by
    cases hf : db.alocacoes.find? (fun al => al.id == id) with
    | none => simp [putAlocacao, hf]
    | some al => simp [putAlocacao, hf]
  have h3 : (putAlocacao db id (parseUpdateAlocacao raw)).2.acoes = db.acoes := by
    cases hf : db.alocacoes.find? (fun al => al.id == id) with
    | none => simp [putAlocacao, hf]
    | some al => simp [putAlocacao, hf]
  refine ⟨rfl, h2, h3, ?_, ?_⟩
  · cases hf : db.alocacoes.find? (fun al => al.id == id) with
    | none =>
      intro x hx
      exact ⟨x, by simpa [putAlocacao, hf] using hx, rfl, rfl, rfl⟩
    | some al =>
      intro x hx
      simp only [putAlocacao, hf] at hx
      obtain ⟨y, hy, hxy⟩ := List.mem_map.mp hx
      by_cases h : (y.id == id) = true
      · rw [if_pos h] at hxy
        exact ⟨al, List.mem_of_find?_eq_some hf, by simp [← hxy, applyUpdateAlocacao]⟩
      · rw [if_neg h] at hxy
        exact ⟨y, hy, by simp [← hxy]⟩
  · cases hf : db.alocacoes.find? (fun al => al.id == id) with
    | none =>
      intro al acaoOpt hb
      simp [putAlocacao, hf] at hb
    | some al =>
      intro x acaoOpt hb
      simp only [putAlocacao, hf, Body.alocacao.injEq] at hb
      exact ⟨al, List.mem_of_find?_eq_some hf, by simp [← hb.1, applyUpdateAlocacao]⟩

/-- Witness for C9: a raw body attempting to change `acaoId` and
`clienteId` parses identically with those keys removed, and the stored
linkage survives the update on the sample database. -/
theorem putAlocacao_frame_witness :
    parseUpdateAlocacao
        { quantidade := some 150, acaoId := some 9, clienteId := some 9 } =
      parseUpdateAlocacao { quantidade := some 150 } ∧
    ∃ y ∈ dbSample.alocacoes, aloc1.id = y.id ∧ aloc1.clienteId = y.clienteId ∧
      aloc1.acaoId = y.acaoId :=
  ⟨(putAlocacao_frame dbSample 1
      { quantidade := some 150, acaoId := some 9, clienteId := some 9 }).1,
   ⟨aloc1, by decide, rfl, rfl, rfl⟩⟩
